import Mathlib

/-!
# Headless GL emulator window: presentation and readback

A shallow embedding of `src/encore/emu_window/emu_window_headless_gl.cpp`
(`EmuWindow_Headless_GL`) and theorems about it.

Conventions of the embedding

* `u32` values are natural numbers; every `u32` operation of the source is
  written with its reduction modulo 2^32 (`mulU32`, `subU32`).
* `int` values are integers; the conversion `const int w = width` is `toInt`
  (two's complement).  Signed overflow inside the loop of `ReadFrameBuffer`
  is undefined in C++; it is embedded as two's complement wrap-around, and
  every theorem below that speaks about the copy carries hypotheses under
  which no such overflow happens.
* Memory reached through a pointer is a function from pixel index (relative
  to the pointer the caller passed) to pixel value; an index may be negative.
* The state of the current OpenGL context is the record `GLState`, threaded
  through the operations.
-/

namespace Headless

/-! ## Machine arithmetic -/

/-- Product of two `u32` values (unsigned 32-bit multiplication). -/
def mulU32 (a b : Nat) : Nat := (a * b) % 4294967296

/-- Difference of two `u32` values (unsigned 32-bit subtraction). -/
def subU32 (a b : Nat) : Nat := (a + (4294967296 - b % 4294967296)) % 4294967296

/-- Conversion of an integer value to `int` (32-bit two's complement). -/
def toInt (x : Int) : Int := (x + 2147483648) % 4294967296 - 2147483648

/-! ## Data model -/

/-- The type `Common::Rectangle<u32>`: the four edges of a screen rectangle. -/
structure Rectangle where
  left : Nat
  top : Nat
  right : Nat
  bottom : Nat
deriving DecidableEq

/-- The fields of `Layout::FramebufferLayout` that `ReloadConfig` and `Present` use. -/
structure FramebufferLayout where
  width : Nat
  height : Nat
  top_screen : Rectangle
  bottom_screen : Rectangle
  is_rotated : Bool
deriving DecidableEq

/-- The three entries of `Settings::values` read by `ReloadConfig`. -/
structure Values where
  custom_layout : Bool
  swap_screen : Bool
  resolution_factor : Nat
deriving DecidableEq

/-- The part of the state of the current OpenGL context that the window touches:
scissor-test enablement, the framebuffer and pixel-pack-buffer bindings, and the
number of object names generated so far. -/
structure GLState where
  scissor_test : Bool
  draw_framebuffer : Nat
  read_framebuffer : Nat
  pixel_pack_buffer : Nat
  names : Nat
deriving DecidableEq

/-- The fields of `OpenGL::OpenGLState` that `Present` reads from `prev_state`:
`scissor.enabled`, `draw.read_framebuffer` and `draw.draw_framebuffer`. -/
structure OpenGLState where
  scissor_enabled : Bool
  read_framebuffer : Nat
  draw_framebuffer : Nat
deriving DecidableEq

/-- A texture wrapper (`OGLTexture`): its GL name and the size of the storage
allocated for it (0 by 0 while nothing is allocated). -/
structure OGLTexture where
  handle : Nat
  width : Nat
  height : Nat
deriving DecidableEq

/-- A framebuffer wrapper (`OGLFramebuffer`): its GL name and the texture
attached as colour attachment 0. -/
structure OGLFramebuffer where
  handle : Nat
  color_attachment0 : Nat
deriving DecidableEq

/-- A buffer wrapper (`OGLBuffer`): its GL name and the byte size of its data store. -/
structure OGLBuffer where
  handle : Nat
  size : Nat
deriving DecidableEq

/-- The state of an `EmuWindow_Headless_GL` object together with the state of
the GL context it works on.  `framebuffer_layout` is the member of the base
class `EmuWindow`; `width` and `height` are `u32` members (they are assigned from
and compared with the `u32` fields of the layout and returned as
`std::pair<u32, u32>`). -/
structure EmuWindow_Headless_GL where
  framebuffer_layout : FramebufferLayout
  width : Nat
  height : Nat
  final_texture : OGLTexture
  final_texture_fbo : OGLFramebuffer
  final_texture_pbo : OGLBuffer
  gl : GLState
deriving DecidableEq

/-- The two framebuffer binding points used by the source. -/
inductive FramebufferTarget where
  | GL_DRAW_FRAMEBUFFER
  | GL_READ_FRAMEBUFFER
deriving DecidableEq

/-! ## OpenGL entry points -/

/-- The GL call `glBindFramebuffer(target, framebuffer)`. -/
def glBindFramebuffer (target : FramebufferTarget) (framebuffer : Nat) (gl : GLState) : GLState :=
  match target with
  | .GL_DRAW_FRAMEBUFFER => { gl with draw_framebuffer := framebuffer }
  | .GL_READ_FRAMEBUFFER => { gl with read_framebuffer := framebuffer }

/-- The GL call `glEnable(GL_SCISSOR_TEST)`. -/
def glEnable_SCISSOR_TEST (gl : GLState) : GLState := { gl with scissor_test := true }

/-- The GL call `glDisable(GL_SCISSOR_TEST)`. -/
def glDisable_SCISSOR_TEST (gl : GLState) : GLState := { gl with scissor_test := false }

/-- The GL call `glBindBuffer(GL_PIXEL_PACK_BUFFER, buffer)`. -/
def glBindBuffer_PIXEL_PACK (buffer : Nat) (gl : GLState) : GLState :=
  { gl with pixel_pack_buffer := buffer }

/-- The GL call `glGen*(1, &handle)`: a fresh, non-zero object name. -/
def glGen (gl : GLState) : Nat × GLState := (gl.names + 1, { gl with names := gl.names + 1 })

/-- The GL call `glFramebufferTexture2D(GL_DRAW_FRAMEBUFFER, GL_COLOR_ATTACHMENT0,
GL_TEXTURE_2D, texture, 0)`: it attaches to the framebuffer object bound for
drawing, and is an error without effect while the default framebuffer 0 is bound. -/
def glFramebufferTexture2D (texture : Nat) (s : EmuWindow_Headless_GL) : EmuWindow_Headless_GL :=
  if s.gl.draw_framebuffer = s.final_texture_fbo.handle ∧ s.gl.draw_framebuffer ≠ 0 then
    { s with final_texture_fbo := { s.final_texture_fbo with color_attachment0 := texture } }
  else s

/-- The GL call `glBufferData(GL_PIXEL_PACK_BUFFER, size, nullptr, GL_STREAM_READ)`:
it gives the buffer bound to the pack target a new data store of `size` bytes,
and is an error without effect while no buffer is bound. -/
def glBufferData_PIXEL_PACK (size : Nat) (s : EmuWindow_Headless_GL) : EmuWindow_Headless_GL :=
  if s.gl.pixel_pack_buffer = s.final_texture_pbo.handle ∧ s.gl.pixel_pack_buffer ≠ 0 then
    { s with final_texture_pbo := { s.final_texture_pbo with size := size } }
  else s

/-- The GL call `glReadPixels(x, y, width, height, GL_BGRA, GL_UNSIGNED_INT_8_8_8_8_REV, 0)`
with a pack buffer bound: it starts the asynchronous transfer of the read
framebuffer's pixels into the data store of that buffer.  The contents of the
data store are not part of the state, so the state is unchanged. -/
def glReadPixels (_x _y _width _height : Nat) (s : EmuWindow_Headless_GL) :
    EmuWindow_Headless_GL := s

/-! ## Collaborators defined outside `emu_window_headless_gl.cpp` -/

/-- Modelled from the spec: `EmuWindow::GetFramebufferLayout` (base class, defined outside
`emu_window_headless_gl.cpp`) returns the current requested output dimensions. -/
def GetFramebufferLayout (s : EmuWindow_Headless_GL) : FramebufferLayout := s.framebuffer_layout

/-- Modelled from the spec: `EmuWindow::UpdateCurrentFramebufferLayout(width, height,
is_portrait_mode)` (base class, defined outside `emu_window_headless_gl.cpp`).  The spec's layout
resolver re-applies the requested pair as the output dimensions, so the call
records `width` and `height` in the current framebuffer layout. -/
def UpdateCurrentFramebufferLayout (width height : Nat) (_is_portrait_mode : Bool)
    (s : EmuWindow_Headless_GL) : EmuWindow_Headless_GL :=
  { s with framebuffer_layout := { s.framebuffer_layout with width := width, height := height } }

/-- Modelled from the spec: `OpenGL::OpenGLState::GetCurState` (defined outside
`emu_window_headless_gl.cpp`) is the snapshot of the current draw/read framebuffer bindings
and of the scissor-test enabled flag. -/
def GetCurState (gl : GLState) : OpenGLState :=
  { scissor_enabled := gl.scissor_test
    read_framebuffer := gl.read_framebuffer
    draw_framebuffer := gl.draw_framebuffer }

/-- Modelled from the spec: `OGLTexture::Release` (defined outside `emu_window_headless_gl.cpp`)
releases a previously held texture and is safe on an empty one. -/
def OGLTexture.Release (_t : OGLTexture) : OGLTexture := { handle := 0, width := 0, height := 0 }

/-- Modelled from the spec: `OGLTexture::Create` (defined outside `emu_window_headless_gl.cpp`)
obtains a new texture name. -/
def OGLTexture.Create (t : OGLTexture) (gl : GLState) : OGLTexture × GLState :=
  ({ t with handle := (glGen gl).1 }, (glGen gl).2)

/-- Modelled from the spec: `OGLTexture::Allocate(GL_TEXTURE_2D, 1, GL_RGBA8, width,
height, 0)` (defined outside `emu_window_headless_gl.cpp`) allocates storage of the given size,
one mip level, RGBA8. -/
def OGLTexture.Allocate (t : OGLTexture) (width height : Nat) : OGLTexture :=
  { t with width := width, height := height }

/-- Modelled from the spec: `OGLFramebuffer::Create` (defined outside `emu_window_headless_gl.cpp`)
obtains a new framebuffer name. -/
def OGLFramebuffer.Create (f : OGLFramebuffer) (gl : GLState) : OGLFramebuffer × GLState :=
  ({ f with handle := (glGen gl).1 }, (glGen gl).2)

/-- Modelled from the spec: `OGLBuffer::Create` (defined outside `emu_window_headless_gl.cpp`)
obtains a new buffer name. -/
def OGLBuffer.Create (b : OGLBuffer) (gl : GLState) : OGLBuffer × GLState :=
  ({ b with handle := (glGen gl).1 }, (glGen gl).2)

/-! ## `ReloadConfig` -/

/-- The local `layout` of the custom-layout branch of `ReloadConfig` after its
`width` and `height` have been overwritten and swapped (lines 137 to 146). -/
def ReloadConfig.customLayout (layout : FramebufferLayout) : FramebufferLayout :=
  let left := min layout.top_screen.left layout.bottom_screen.left
  let right := max layout.top_screen.right layout.bottom_screen.right
  let bottom := min layout.top_screen.bottom layout.bottom_screen.bottom
  let top := max layout.top_screen.top layout.bottom_screen.top
  let layout := { layout with width := subU32 right left, height := subU32 top bottom }
  if layout.is_rotated then
    { layout with width := layout.height, height := layout.width }
  else layout

/-- The first half of `ReloadConfig` (lines 136 to 152): it establishes the base
size.  `CustomFrameLayout` is `Layout::CustomFrameLayout`, which is defined
outside `emu_window_headless_gl.cpp` and is a parameter. -/
def ReloadConfig.base (values : Values) (CustomFrameLayout : Nat → Nat → Bool → FramebufferLayout)
    (s : EmuWindow_Headless_GL) : EmuWindow_Headless_GL :=
  if values.custom_layout then
    let layout := ReloadConfig.customLayout (CustomFrameLayout 1 1 values.swap_screen)
    UpdateCurrentFramebufferLayout (max layout.width 1) (max layout.height 1) false s
  else
    UpdateCurrentFramebufferLayout 1 1 false s

/-- The method `EmuWindow_Headless_GL::ReloadConfig`.  The scale factor
`Settings::values.resolution_factor` is a `u32`, so both products are `u32` products. -/
def ReloadConfig (values : Values) (CustomFrameLayout : Nat → Nat → Bool → FramebufferLayout)
    (s : EmuWindow_Headless_GL) : EmuWindow_Headless_GL :=
  let s := ReloadConfig.base values CustomFrameLayout s
  let layout := GetFramebufferLayout s
  let scale_factor := values.resolution_factor
  UpdateCurrentFramebufferLayout (mulU32 layout.width scale_factor)
    (mulU32 layout.height scale_factor) false s

/-! ## `ResetGLTexture`, the constructor and `Present` -/

/-- The method `EmuWindow_Headless_GL::ResetGLTexture`. -/
def ResetGLTexture (s : EmuWindow_Headless_GL) : EmuWindow_Headless_GL :=
  let s := { s with final_texture := s.final_texture.Release }
  let s := { s with final_texture := (s.final_texture.Create s.gl).1,
                    gl := (s.final_texture.Create s.gl).2 }
  let s := { s with final_texture := s.final_texture.Allocate s.width s.height }
  let s := { s with gl := glBindFramebuffer .GL_DRAW_FRAMEBUFFER s.final_texture_fbo.handle s.gl }
  let s := glFramebufferTexture2D s.final_texture.handle s
  { s with gl := glBindFramebuffer .GL_DRAW_FRAMEBUFFER 0 s.gl }

/-- The constructor `EmuWindow_Headless_GL::EmuWindow_Headless_GL`, run on the GL
context state `gl` with the base class holding `layout` before `ReloadConfig`.
Acquiring the context and loading the GL entry points (both asserted to succeed
by the source) leave the modelled state alone. -/
def EmuWindow_Headless_GL.construct (values : Values)
    (CustomFrameLayout : Nat → Nat → Bool → FramebufferLayout)
    (layout : FramebufferLayout) (gl : GLState) : EmuWindow_Headless_GL :=
  let s : EmuWindow_Headless_GL :=
    { framebuffer_layout := layout, width := 0, height := 0,
      final_texture := { handle := 0, width := 0, height := 0 },
      final_texture_fbo := { handle := 0, color_attachment0 := 0 },
      final_texture_pbo := { handle := 0, size := 0 },
      gl := gl }
  let s := ReloadConfig values CustomFrameLayout s
  let layout := GetFramebufferLayout s
  let s := { s with width := layout.width, height := layout.height }
  let s := { s with final_texture_fbo := (s.final_texture_fbo.Create s.gl).1,
                    gl := (s.final_texture_fbo.Create s.gl).2 }
  let s := { s with final_texture_pbo := (s.final_texture_pbo.Create s.gl).1,
                    gl := (s.final_texture_pbo.Create s.gl).2 }
  ResetGLTexture s

/-- The part of `Present` that runs before the renderer is called (lines 76 to 89):
the resize check, `glDisable(GL_SCISSOR_TEST)` and binding the FBO for drawing.
Its result is the state in which `TryPresent(0)` is invoked. -/
def Present.beforeRender (s : EmuWindow_Headless_GL) : EmuWindow_Headless_GL :=
  let layout := GetFramebufferLayout s
  let s :=
    if s.width ≠ layout.width ∨ s.height ≠ layout.height then
      ResetGLTexture { s with width := layout.width, height := layout.height }
    else s
  let s := { s with gl := glDisable_SCISSOR_TEST s.gl }
  { s with gl := glBindFramebuffer .GL_DRAW_FRAMEBUFFER s.final_texture_fbo.handle s.gl }

/-- The part of `Present` that runs after the renderer returns (lines 91 to 106):
the asynchronous readback into the PBO and the restoration of `prev_state`.
`sizeof(u32)` is 4 and the product with it is taken in the 64-bit `size_t`. -/
def Present.afterRender (prev_state : OpenGLState) (s : EmuWindow_Headless_GL) :
    EmuWindow_Headless_GL :=
  let s := { s with gl := glBindFramebuffer .GL_DRAW_FRAMEBUFFER 0 s.gl }
  let s := { s with gl := glBindFramebuffer .GL_READ_FRAMEBUFFER s.final_texture_fbo.handle s.gl }
  let s := { s with gl := glBindBuffer_PIXEL_PACK s.final_texture_pbo.handle s.gl }
  let s := glBufferData_PIXEL_PACK (mulU32 s.width s.height * 4) s
  let s := glReadPixels 0 0 s.width s.height s
  let s := { s with gl := glBindBuffer_PIXEL_PACK 0 s.gl }
  let s := if prev_state.scissor_enabled then { s with gl := glEnable_SCISSOR_TEST s.gl } else s
  let s := { s with gl := glBindFramebuffer .GL_READ_FRAMEBUFFER prev_state.read_framebuffer s.gl }
  { s with gl := glBindFramebuffer .GL_DRAW_FRAMEBUFFER prev_state.draw_framebuffer s.gl }

/-- The method `EmuWindow_Headless_GL::Present`.  `TryPresent` is the renderer's
`TryPresent(0)`, a parameter acting on the GL context; `prev_state` is the state
obtained from `GetCurState` on entry. -/
def Present (TryPresent : GLState → GLState) (s : EmuWindow_Headless_GL) :
    EmuWindow_Headless_GL :=
  let prev_state := GetCurState s.gl
  let s := Present.beforeRender s
  let s := { s with gl := TryPresent s.gl }
  Present.afterRender prev_state s

/-- The method `EmuWindow_Headless_GL::GetVideoBufferDimensions`. -/
def GetVideoBufferDimensions (s : EmuWindow_Headless_GL) : Nat × Nat := (s.width, s.height)

/-- The method `EmuWindow_Headless_GL::GetGLTexture`. -/
def GetGLTexture (s : EmuWindow_Headless_GL) : Nat := s.final_texture.handle

/-! ## `ReadFrameBuffer` -/

/-- One `std::memcpy` of the loop of `ReadFrameBuffer`, in pixels: `count` pixels
from `p[src ..]` to `dest_buffer[dst ..]`, where `dst` is relative to the pointer
the caller passed. -/
structure RowCopy where
  dst : Int
  src : Int
  count : Nat
deriving DecidableEq

/-- The call `std::memcpy(&dest[dst], &p[src], count * sizeof(u32))`. -/
def memcpy (dest : Int → Nat) (p : Int → Nat) (c : RowCopy) : Int → Nat :=
  fun k => if c.dst ≤ k ∧ k < c.dst + c.count then p (c.src + (k - c.dst)) else dest k

/-- The copies issued by the loop of `ReadFrameBuffer` (lines 122 to 127), in
order.  `dest_buffer` is first advanced by the `u32` product `width * (height - 1)`;
iteration `i` of `for (int i = 0; i < h; i++)` then copies `width` pixels from
`p[i * w]` to `dest_buffer[-i * w]` with `int` arithmetic, where `w` and `h` are
`width` and `height` converted to `int`.  The loop runs `h` times when `h` is
positive and not at all otherwise.  The byte count `width * sizeof(u32)` is taken
in the 64-bit `size_t` of the supported architectures and is `width` pixels. -/
def ReadFrameBuffer.copies (width height : Nat) : List RowCopy :=
  let offset : Int := mulU32 width (subU32 height 1)
  let w : Int := toInt width
  let h : Int := toInt height
  (List.range h.toNat).map fun (i : Nat) =>
    { dst := offset + toInt (-(i : Int) * w), src := toInt ((i : Int) * w), count := width }

/-- The method `EmuWindow_Headless_GL::ReadFrameBuffer`.  `mapped` is the result
of `glMapBuffer(GL_PIXEL_PACK_BUFFER, GL_READ_ONLY)`: `none` for a null pointer,
otherwise the mapped transfer buffer.  The result is the state afterwards and the
memory behind `dest_buffer`. -/
def ReadFrameBuffer (s : EmuWindow_Headless_GL) (mapped : Option (Int → Nat))
    (dest_buffer : Int → Nat) : EmuWindow_Headless_GL × (Int → Nat) :=
  let s1 := { s with gl := glBindBuffer_PIXEL_PACK s.final_texture_pbo.handle s.gl }
  let dest :=
    match mapped with
    | some p => (ReadFrameBuffer.copies s1.width s1.height).foldl (fun d c => memcpy d p c) dest_buffer
    | none => dest_buffer
  ({ s1 with gl := glBindBuffer_PIXEL_PACK 0 s1.gl }, dest)

/-- The pixel indices of `dest_buffer` written by the copies, one entry per pixel written. -/
def ReadFrameBuffer.written (width height : Nat) : List Int :=
  (ReadFrameBuffer.copies width height).flatMap fun c =>
    (List.range c.count).map fun (j : Nat) => c.dst + (j : Int)

/-- The pixel indices of the mapped buffer read by the copies, one entry per pixel read. -/
def ReadFrameBuffer.read (width height : Nat) : List Int :=
  (ReadFrameBuffer.copies width height).flatMap fun c =>
    (List.range c.count).map fun (j : Nat) => c.src + (j : Int)

/-! ## Reachable states -/

/-- The states reachable through the public operations: construction, then any
sequence of `ReloadConfig` (under any settings), `Present` (with any renderer
behaviour) and `ReadFrameBuffer` (with any mapping result and destination). -/
inductive Reachable : EmuWindow_Headless_GL → Prop where
  | construct (values : Values) (CustomFrameLayout : Nat → Nat → Bool → FramebufferLayout)
      (layout : FramebufferLayout) (gl : GLState) :
      Reachable (EmuWindow_Headless_GL.construct values CustomFrameLayout layout gl)
  | reloadConfig (values : Values) (CustomFrameLayout : Nat → Nat → Bool → FramebufferLayout)
      {s : EmuWindow_Headless_GL} :
      Reachable s → Reachable (ReloadConfig values CustomFrameLayout s)
  | present (TryPresent : GLState → GLState) {s : EmuWindow_Headless_GL} :
      Reachable s → Reachable (Present TryPresent s)
  | readFrameBuffer (mapped : Option (Int → Nat)) (dest_buffer : Int → Nat)
      {s : EmuWindow_Headless_GL} :
      Reachable s → Reachable (ReadFrameBuffer s mapped dest_buffer).1

/-! ## Auxiliary definitions and concrete inputs -/

/-- The row copies of a vertical flip, written without machine arithmetic:
row `i` of the source goes to the row that starts at `offset - i * width`. -/
def flipRows (width : Nat) (offset : Int) (n : Nat) : List RowCopy :=
  (List.range n).map fun (i : Nat) =>
    { dst := offset - (i : Int) * (width : Int), src := (i : Int) * (width : Int), count := width }

/-- A custom frame layout whose two screens both span `w` by `h` pixels from the origin. -/
def rectLayout (w h : Nat) : Nat → Nat → Bool → FramebufferLayout := fun _ _ _ =>
  { width := 1, height := 1,
    top_screen := { left := 0, top := h, right := w, bottom := 0 },
    bottom_screen := { left := 0, top := h, right := w, bottom := 0 },
    is_rotated := false }

/-- The state of a GL context right after its creation. -/
def freshGL : GLState :=
  { scissor_test := false, draw_framebuffer := 0, read_framebuffer := 0,
    pixel_pack_buffer := 0, names := 0 }

/-- A default-constructed framebuffer layout. -/
def emptyLayout : FramebufferLayout :=
  { width := 0, height := 0,
    top_screen := { left := 0, top := 0, right := 0, bottom := 0 },
    bottom_screen := { left := 0, top := 0, right := 0, bottom := 0 },
    is_rotated := false }

/-- The window constructed on a fresh context while the settings ask for the
custom layout `rectLayout w h` at resolution factor 1: its surface is `w` by `h`. -/
def windowOfSize (w h : Nat) : EmuWindow_Headless_GL :=
  EmuWindow_Headless_GL.construct
    { custom_layout := true, swap_screen := false, resolution_factor := 1 }
    (rectLayout w h) emptyLayout freshGL

/-- A transfer buffer whose pixel `k` holds the marker `100 + k`. -/
def markerBuffer : Int → Nat := fun k => 100 + k.toNat

/-- A destination buffer filled with zeros. -/
def zeroBuffer : Int → Nat := fun _ => 0

/-- The surface invariant of a constructed window: the destination texture exists,
its storage has the size `width` by `height`, it is the colour attachment of the FBO,
and the FBO and the PBO exist. -/
def SurfaceInv (s : EmuWindow_Headless_GL) : Prop :=
  s.final_texture.width = s.width ∧ s.final_texture.height = s.height
  ∧ s.final_texture_fbo.color_attachment0 = s.final_texture.handle
  ∧ s.final_texture.handle ≠ 0 ∧ s.final_texture_fbo.handle ≠ 0
  ∧ s.final_texture_pbo.handle ≠ 0

/-- The states reached from a state without a further `Present`: any sequence of
`ReloadConfig` and `ReadFrameBuffer`. -/
inductive UntilNextPresent (s : EmuWindow_Headless_GL) : EmuWindow_Headless_GL → Prop where
  | refl : UntilNextPresent s s
  | reloadConfig (values : Values) (CustomFrameLayout : Nat → Nat → Bool → FramebufferLayout)
      {t : EmuWindow_Headless_GL} :
      UntilNextPresent s t → UntilNextPresent s (ReloadConfig values CustomFrameLayout t)
  | readFrameBuffer (mapped : Option (Int → Nat)) (dest_buffer : Int → Nat)
      {t : EmuWindow_Headless_GL} :
      UntilNextPresent s t → UntilNextPresent s (ReadFrameBuffer t mapped dest_buffer).1

/-- A renderer that leaves scissor test and framebuffer bindings alone but
generates an object name and leaves a pack buffer bound. -/
def busyRenderer (gl : GLState) : GLState :=
  { gl with pixel_pack_buffer := 5, names := gl.names + 1 }

/-- The 4 by 3 window after the settings switched to resolution factor 2 and
`ReloadConfig` ran: the layout asks for 8 by 6, the surface is still 4 by 3. -/
def rescaledWindow : EmuWindow_Headless_GL :=
  ReloadConfig { custom_layout := true, swap_screen := false, resolution_factor := 2 }
    (rectLayout 4 3) (windowOfSize 4 3)

/-- The window `rescaledWindow` on a context whose scissor test is enabled and whose
framebuffer bindings are 7 (draw) and 9 (read); its next `Present` has to resize. -/
def scissorWindow : EmuWindow_Headless_GL :=
  { rescaledWindow with
    gl := { scissor_test := true, draw_framebuffer := 7, read_framebuffer := 9,
            pixel_pack_buffer := 0, names := 3 } }

/-- The width of the bounding rectangle of the two screens in the spec's words,
as an integer: max(rights) - min(lefts). -/
def boundingRectWidth (layout : FramebufferLayout) : Int :=
  ((max layout.top_screen.right layout.bottom_screen.right : Nat) : Int)
    - ((min layout.top_screen.left layout.bottom_screen.left : Nat) : Int)

/-- The height of the bounding rectangle of the two screens in the spec's words,
as an integer: max(tops) - min(bottoms).  It is negative or zero when the top
edges are numerically below the bottom edges. -/
def boundingRectHeight (layout : FramebufferLayout) : Int :=
  ((max layout.top_screen.top layout.bottom_screen.top : Nat) : Int)
    - ((min layout.top_screen.bottom layout.bottom_screen.bottom : Nat) : Int)

/-- The horizontal extent of the smallest rectangle enclosing both screens,
whichever edge of a screen carries the smaller coordinate. -/
def enclosingRectWidth (layout : FramebufferLayout) : Nat :=
  max (max layout.top_screen.left layout.top_screen.right)
      (max layout.bottom_screen.left layout.bottom_screen.right)
    - min (min layout.top_screen.left layout.top_screen.right)
        (min layout.bottom_screen.left layout.bottom_screen.right)

/-- The vertical extent of the smallest rectangle enclosing both screens,
whichever edge of a screen carries the smaller coordinate. -/
def enclosingRectHeight (layout : FramebufferLayout) : Nat :=
  max (max layout.top_screen.top layout.top_screen.bottom)
      (max layout.bottom_screen.top layout.bottom_screen.bottom)
    - min (min layout.top_screen.top layout.top_screen.bottom)
        (min layout.bottom_screen.top layout.bottom_screen.bottom)

/-- A custom frame layout in screen coordinates that grow downwards: both screens
have their top edge at 0 and their bottom edge at 240, and span 0 to 400
horizontally. -/
def downwardLayout : Nat → Nat → Bool → FramebufferLayout := fun _ _ _ =>
  { width := 1, height := 1,
    top_screen := { left := 0, top := 0, right := 400, bottom := 240 },
    bottom_screen := { left := 0, top := 0, right := 400, bottom := 240 },
    is_rotated := false }

/-- A rotated custom frame layout: the top screen spans 0 to 400 and the bottom
screen 40 to 360 horizontally, both between bottom edge 0 and top edge 240. -/
def rotatedLayout : Nat → Nat → Bool → FramebufferLayout := fun _ _ _ =>
  { width := 1, height := 1,
    top_screen := { left := 0, top := 240, right := 400, bottom := 0 },
    bottom_screen := { left := 40, top := 240, right := 360, bottom := 0 },
    is_rotated := true }

/-! ## Machine arithmetic: lemmas -/

theorem toInt_eq_self {x : Int} (h1 : -2147483648 ≤ x) (h2 : x < 2147483648) : toInt x = x := by
  unfold toInt
  omega

theorem mulU32_eq_mul {a b : Nat} (h : a * b < 4294967296) : mulU32 a b = a * b := by
  unfold mulU32
  exact Nat.mod_eq_of_lt h

theorem subU32_one {a : Nat} (h1 : 1 ≤ a) (h2 : a < 4294967296) : subU32 a 1 = a - 1 := by
  unfold subU32
  omega

/-! ## The copy loop of `ReadFrameBuffer`: lemmas -/

theorem copies_eq_flipRows (width height : Nat) (hh : height < 2147483648)
    (hw : width * (height - 1) < 2147483648) :
    ReadFrameBuffer.copies width height
      = flipRows width ((width * (height - 1) : Nat) : Int) height := by
  have hH : toInt (height : Int) = (height : Int) := toInt_eq_self (by omega) (by omega)
  rcases Nat.eq_zero_or_pos height with hz | h1
  · subst hz
    simp [ReadFrameBuffer.copies, flipRows, toInt]
  have hsub : subU32 height 1 = height - 1 := subU32_one h1 (by omega)
  have hmul : mulU32 width (height - 1) = width * (height - 1) := mulU32_eq_mul (by omega)
  unfold ReadFrameBuffer.copies flipRows
  simp only [hsub, hmul, hH, Int.toNat_ofNat]
  apply List.map_congr_left
  intro i hi
  have hi2 : i < height := List.mem_range.mp hi
  rcases Nat.eq_zero_or_pos i with h0 | hpos
  · subst h0
    simp [toInt]
  · have hle : i * width ≤ (height - 1) * width := Nat.mul_le_mul_right _ (by omega)
    have hle1 : 1 * width ≤ (height - 1) * width := Nat.mul_le_mul_right _ (by omega)
    have hcomm : (height - 1) * width = width * (height - 1) := Nat.mul_comm _ _
    have hwlt : width < 2147483648 := by omega
    have hW : toInt (width : Int) = (width : Int) := toInt_eq_self (by omega) (by omega)
    have hiw : ((i * width : Nat) : Int) = (i : Int) * (width : Int) := by push_cast; rfl
    have hlt : i * width < 2147483648 := by omega
    have e1 : toInt (-(i : Int) * (width : Int)) = -((i : Int) * (width : Int)) := by
      rw [neg_mul]
      apply toInt_eq_self <;> omega
    have e2 : toInt ((i : Int) * (width : Int)) = (i : Int) * (width : Int) := by
      apply toInt_eq_self <;> omega
    rw [hW, e1, e2]
    simp only [RowCopy.mk.injEq, and_true]
    omega

theorem foldl_memcpy_outside (p : Int → Nat) (cs : List RowCopy) (dest : Int → Nat) (k : Int)
    (h : ∀ c ∈ cs, ¬ (c.dst ≤ k ∧ k < c.dst + c.count)) :
    cs.foldl (fun d c => memcpy d p c) dest k = dest k := by
  induction cs generalizing dest with
  | nil => rfl
  | cons c cs ih =>
    rw [List.foldl_cons, ih _ (fun c1 hc1 => h c1 (List.mem_cons_of_mem _ hc1))]
    unfold memcpy
    rw [if_neg (h c (List.mem_cons_self _ _))]

theorem flipRows_succ (width : Nat) (offset : Int) (n : Nat) :
    flipRows width offset (n + 1)
      = flipRows width offset n
        ++ [{ dst := offset - (n : Int) * (width : Int), src := (n : Int) * (width : Int),
              count := width }] := by
  unfold flipRows
  rw [List.range_succ, List.map_append]
  rfl

theorem foldl_flipRows (p dest : Int → Nat) (width : Nat) (offset : Int) (n : Nat) :
    ∀ i j : Nat, i < n → j < width →
      (flipRows width offset n).foldl (fun d c => memcpy d p c) dest
          (offset - (i : Int) * (width : Int) + (j : Int))
        = p ((i : Int) * (width : Int) + (j : Int)) := by
  induction n with
  | zero => intro i j hi; omega
  | succ n ih =>
    intro i j hi hj
    rw [flipRows_succ, List.foldl_append, List.foldl_cons, List.foldl_nil]
    unfold memcpy
    simp only
    rcases Nat.lt_succ_iff_lt_or_eq.mp hi with hlt | heq
    · have hle : (i + 1) * width ≤ n * width := Nat.mul_le_mul_right _ hlt
      have hle2 : ((i : Int) + 1) * (width : Int) ≤ (n : Int) * (width : Int) := by
        exact_mod_cast hle
      have hexp : ((i : Int) + 1) * (width : Int) = (i : Int) * (width : Int) + (width : Int) := by
        ring
      rw [if_neg (by omega)]
      exact ih i j hlt hj
    · subst heq
      rw [if_pos (by omega)]
      congr 1
      omega

/-- Every row of a flip that starts at `width * (height - 1)` lies inside the
first `width * height` pixels. -/
theorem flip_row_bounds (width height i : Nat) (hi : i < height) :
    (0 : Int) ≤ ((width * (height - 1) : Nat) : Int) - (i : Int) * (width : Int)
    ∧ ((width * (height - 1) : Nat) : Int) - (i : Int) * (width : Int) + (width : Int)
        ≤ ((width * height : Nat) : Int) := by
  have hle : i * width ≤ (height - 1) * width := Nat.mul_le_mul_right _ (by omega)
  have hcomm : (height - 1) * width = width * (height - 1) := Nat.mul_comm _ _
  have hsplit : width * height = width * (height - 1) + width := by
    have : height = (height - 1) + 1 := by omega
    conv_lhs => rw [this, Nat.mul_add, Nat.mul_one]
  have hiw : ((i * width : Nat) : Int) = (i : Int) * (width : Int) := by push_cast; rfl
  constructor <;> omega

theorem mem_written_flip {width height : Nat} (hh : height < 2147483648)
    (hw : width * (height - 1) < 2147483648) {k : Int} :
    k ∈ ReadFrameBuffer.written width height ↔
      ∃ i j : Nat, i < height ∧ j < width ∧
        k = ((width * (height - 1) : Nat) : Int) - (i : Int) * (width : Int) + (j : Int) := by
  unfold ReadFrameBuffer.written
  rw [copies_eq_flipRows width height hh hw]
  simp only [flipRows, List.mem_flatMap, List.mem_map, List.mem_range]
  constructor
  · rintro ⟨c, ⟨i, hi, rfl⟩, j, hj, rfl⟩
    exact ⟨i, j, hi, hj, rfl⟩
  · rintro ⟨i, j, hi, hj, rfl⟩
    exact ⟨_, ⟨i, hi, rfl⟩, j, hj, rfl⟩

theorem mem_read_flip {width height : Nat} (hh : height < 2147483648)
    (hw : width * (height - 1) < 2147483648) {k : Int} :
    k ∈ ReadFrameBuffer.read width height ↔
      ∃ i j : Nat, i < height ∧ j < width ∧ k = (i : Int) * (width : Int) + (j : Int) := by
  unfold ReadFrameBuffer.read
  rw [copies_eq_flipRows width height hh hw]
  simp only [flipRows, List.mem_flatMap, List.mem_map, List.mem_range]
  constructor
  · rintro ⟨c, ⟨i, hi, rfl⟩, j, hj, rfl⟩
    exact ⟨i, j, hi, hj, rfl⟩
  · rintro ⟨i, j, hi, hj, rfl⟩
    exact ⟨_, ⟨i, hi, rfl⟩, j, hj, rfl⟩

theorem written_bounds {width height : Nat} (hh : height < 2147483648)
    (hw : width * (height - 1) < 2147483648) {k : Int}
    (hk : k ∈ ReadFrameBuffer.written width height) :
    0 ≤ k ∧ k < ((width * height : Nat) : Int) := by
  obtain ⟨i, j, hi, hj, rfl⟩ := (mem_written_flip hh hw).mp hk
  have hb := flip_row_bounds width height i hi
  constructor <;> omega

theorem read_bounds {width height : Nat} (hh : height < 2147483648)
    (hw : width * (height - 1) < 2147483648) {k : Int}
    (hk : k ∈ ReadFrameBuffer.read width height) :
    0 ≤ k ∧ k < ((width * height : Nat) : Int) := by
  obtain ⟨i, j, hi, hj, rfl⟩ := (mem_read_flip hh hw).mp hk
  have hle : (i + 1) * width ≤ height * width := Nat.mul_le_mul_right _ hi
  have hcomm : height * width = width * height := Nat.mul_comm _ _
  have hexp : (i + 1) * width = i * width + width := by ring
  have hiw : ((i * width : Nat) : Int) = (i : Int) * (width : Int) := by push_cast; rfl
  constructor <;> omega

theorem mem_written_of_lt {width height : Nat} (hh : height < 2147483648)
    (hw : width * (height - 1) < 2147483648) {k : Int} (h0 : 0 ≤ k)
    (hk : k < ((width * height : Nat) : Int)) :
    k ∈ ReadFrameBuffer.written width height := by
  obtain ⟨n, rfl⟩ := Int.eq_ofNat_of_zero_le h0
  have hn : n < width * height := by exact_mod_cast hk
  have hwpos : 0 < width := by
    rcases Nat.eq_zero_or_pos width with h | h
    · subst h; simp at hn
    · exact h
  have hdiv : n / width < height := by
    rw [Nat.div_lt_iff_lt_mul hwpos, Nat.mul_comm]
    exact hn
  have hdm : width * (n / width) + n % width = n := Nat.div_add_mod n width
  have hmod : n % width < width := Nat.mod_lt _ hwpos
  generalize n / width = q at hdiv hdm
  generalize n % width = r at hdm hmod
  rw [mem_written_flip hh hw]
  refine ⟨height - 1 - q, r, by omega, hmod, ?_⟩
  have hmul : (height - 1 - q) * width + width * q = width * (height - 1) := by
    rw [Nat.mul_comm width q, ← Nat.add_mul]
    rw [Nat.sub_add_cancel (by omega), Nat.mul_comm]
  have c1 : (((height - 1 - q) * width : Nat) : Int)
      = ((height - 1 - q : Nat) : Int) * (width : Int) := by push_cast; rfl
  omega

theorem written_nodup {width height : Nat} (hh : height < 2147483648)
    (hw : width * (height - 1) < 2147483648) :
    (ReadFrameBuffer.written width height).Nodup := by
  unfold ReadFrameBuffer.written
  rw [copies_eq_flipRows width height hh hw, List.nodup_flatMap]
  constructor
  · intro c _
    apply List.Nodup.map _ (List.nodup_range _)
    intro a b hab
    simp only at hab
    omega
  · unfold flipRows
    rw [List.pairwise_map]
    apply (List.pairwise_lt_range height).imp
    intro a b hab
    simp only [Function.onFun]
    intro x hx hy
    obtain ⟨j1, hj1, rfl⟩ := List.mem_map.mp hx
    obtain ⟨j2, hj2, e⟩ := List.mem_map.mp hy
    simp only [List.mem_range] at hj1 hj2
    have hle : (a + 1) * width ≤ b * width := Nat.mul_le_mul_right _ hab
    have hexp : (a + 1) * width = a * width + width := by ring
    have ca : ((a * width : Nat) : Int) = (a : Int) * (width : Int) := by push_cast; rfl
    have cb : ((b * width : Nat) : Int) = (b : Int) * (width : Int) := by push_cast; rfl
    omega

theorem ReadFrameBuffer_snd (s : EmuWindow_Headless_GL) (p dest_buffer : Int → Nat) :
    (ReadFrameBuffer s (some p) dest_buffer).2
      = (ReadFrameBuffer.copies s.width s.height).foldl (fun d c => memcpy d p c) dest_buffer := by
  simp only [ReadFrameBuffer]

theorem ReadFrameBuffer_flip_at (s : EmuWindow_Headless_GL) (p dest_buffer : Int → Nat)
    (hh : s.height < 2147483648) (hw : s.width * (s.height - 1) < 2147483648)
    (i j : Nat) (hi : i < s.height) (hj : j < s.width) :
    (ReadFrameBuffer s (some p) dest_buffer).2 (((s.height - 1 - i) * s.width + j : Nat) : Int)
      = p ((i * s.width + j : Nat) : Int) := by
  rw [ReadFrameBuffer_snd, copies_eq_flipRows s.width s.height hh hw]
  have key := foldl_flipRows p dest_buffer s.width ((s.width * (s.height - 1) : Nat) : Int)
    s.height i j hi hj
  have hmul : (s.height - 1 - i) * s.width + i * s.width = s.width * (s.height - 1) := by
    rw [← Nat.add_mul, Nat.sub_add_cancel (by omega), Nat.mul_comm]
  have c1 : ((i * s.width : Nat) : Int) = (i : Int) * (s.width : Int) := by push_cast; rfl
  have e1 : (((s.height - 1 - i) * s.width + j : Nat) : Int)
      = ((s.width * (s.height - 1) : Nat) : Int) - (i : Int) * (s.width : Int) + (j : Int) := by
    omega
  have e2 : ((i * s.width + j : Nat) : Int) = (i : Int) * (s.width : Int) + (j : Int) := by
    omega
  rw [e1, e2]
  exact key

theorem ReadFrameBuffer_unwritten (s : EmuWindow_Headless_GL) (p dest_buffer : Int → Nat)
    (k : Int) (hk : k ∉ ReadFrameBuffer.written s.width s.height) :
    (ReadFrameBuffer s (some p) dest_buffer).2 k = dest_buffer k := by
  rw [ReadFrameBuffer_snd]
  apply foldl_memcpy_outside
  intro c hc hin
  apply hk
  unfold ReadFrameBuffer.written
  rw [List.mem_flatMap]
  refine ⟨c, hc, ?_⟩
  rw [List.mem_map]
  refine ⟨(k - c.dst).toNat, ?_, ?_⟩
  · rw [List.mem_range]
    omega
  · omega

/-! ## The claims about `ReadFrameBuffer` -/

/-- C1 (amended): for every surface whose height is at least 1 and below 2^31 and
whose `width * (height - 1)` is below 2^31, a successful mapping makes
`ReadFrameBuffer` leave destination row `height - 1 - i` equal to source row `i`,
pixel for pixel; in particular destination row 0 is the last source row and the
last destination row is source row 0. -/
theorem C1_ReadFrameBuffer_vertical_flip (s : EmuWindow_Headless_GL)
    (p dest_buffer : Int → Nat) (h1 : 1 ≤ s.height) (hh : s.height < 2147483648)
    (hw : s.width * (s.height - 1) < 2147483648) :
    (∀ i j : Nat, i < s.height → j < s.width →
        (ReadFrameBuffer s (some p) dest_buffer).2
            (((s.height - 1 - i) * s.width + j : Nat) : Int)
          = p ((i * s.width + j : Nat) : Int))
    ∧ (∀ j : Nat, j < s.width →
        (ReadFrameBuffer s (some p) dest_buffer).2 ((j : Nat) : Int)
          = p (((s.height - 1) * s.width + j : Nat) : Int))
    ∧ (∀ j : Nat, j < s.width →
        (ReadFrameBuffer s (some p) dest_buffer).2 (((s.height - 1) * s.width + j : Nat) : Int)
          = p ((j : Nat) : Int)) := by
  refine ⟨fun i j hi hj => ReadFrameBuffer_flip_at s p dest_buffer hh hw i j hi hj, ?_, ?_⟩
  · intro j hj
    have key := ReadFrameBuffer_flip_at s p dest_buffer hh hw (s.height - 1) j (by omega) hj
    simpa using key
  · intro j hj
    have key := ReadFrameBuffer_flip_at s p dest_buffer hh hw 0 j (by omega) hj
    simpa using key

/-- C1 witness: a surface 4 wide and 3 high; destination pixel 0 (row 0) receives
source pixel 8 (row 2) and destination pixel 11 (row 2) receives source pixel 3 (row 0). -/
theorem C1_ReadFrameBuffer_vertical_flip_witness :
    (1 ≤ (windowOfSize 4 3).height ∧ (windowOfSize 4 3).height < 2147483648
      ∧ (windowOfSize 4 3).width * ((windowOfSize 4 3).height - 1) < 2147483648)
    ∧ (ReadFrameBuffer (windowOfSize 4 3) (some markerBuffer) zeroBuffer).2 ((0 : Nat) : Int)
        = markerBuffer ((((windowOfSize 4 3).height - 1) * (windowOfSize 4 3).width + 0 : Nat) : Int)
    ∧ (ReadFrameBuffer (windowOfSize 4 3) (some markerBuffer) zeroBuffer).2
          ((((windowOfSize 4 3).height - 1) * (windowOfSize 4 3).width + 3 : Nat) : Int)
        = markerBuffer ((3 : Nat) : Int) :=
  ⟨by decide,
   (C1_ReadFrameBuffer_vertical_flip (windowOfSize 4 3) markerBuffer zeroBuffer
      (by decide) (by decide) (by decide)).2.1 0 (by decide),
   (C1_ReadFrameBuffer_vertical_flip (windowOfSize 4 3) markerBuffer zeroBuffer
      (by decide) (by decide) (by decide)).2.2 3 (by decide)⟩

/-- C1 counterexample: on a surface 1 wide and 2^31 high the conversion
`const int h = height` is negative, the loop body never runs, and the last
destination row keeps its old content 0 instead of receiving source row 0,
whose pixel is the marker 100. -/
theorem C1_counterexample :
    1 ≤ (windowOfSize 1 2147483648).width ∧ 1 ≤ (windowOfSize 1 2147483648).height
    ∧ (0 : Nat) < (windowOfSize 1 2147483648).height ∧ (0 : Nat) < (windowOfSize 1 2147483648).width
    ∧ (ReadFrameBuffer (windowOfSize 1 2147483648) (some markerBuffer) zeroBuffer).2
          ((((windowOfSize 1 2147483648).height - 1 - 0) * (windowOfSize 1 2147483648).width + 0
              : Nat) : Int)
        ≠ markerBuffer ((0 * (windowOfSize 1 2147483648).width + 0 : Nat) : Int) := by
  decide

/-- C4: when `glMapBuffer` returns a null pointer, `ReadFrameBuffer` returns
normally and the memory behind `dest_buffer` is exactly what it was, whatever the
state (width, height) and the destination content are. -/
theorem C4_ReadFrameBuffer_map_failure (s : EmuWindow_Headless_GL) (dest_buffer : Int → Nat) :
    (ReadFrameBuffer s none dest_buffer).2 = dest_buffer ∧
    ∀ k : Int, (ReadFrameBuffer s none dest_buffer).2 k = dest_buffer k :=
  ⟨rfl, fun _ => rfl⟩

/-- C9 (amended): for every surface whose height is below 2^31 and whose
`width * (height - 1)` is below 2^31, on a successful mapping every destination
index written and every source index read by `ReadFrameBuffer` lies in
`[0, width * height)`, every destination index of that range is written exactly
once, and the destination is unchanged outside that range. -/
theorem C9_ReadFrameBuffer_within_bounds (s : EmuWindow_Headless_GL)
    (p dest_buffer : Int → Nat) (hh : s.height < 2147483648)
    (hw : s.width * (s.height - 1) < 2147483648) :
    (∀ k ∈ ReadFrameBuffer.written s.width s.height,
        0 ≤ k ∧ k < ((s.width * s.height : Nat) : Int))
    ∧ (∀ k ∈ ReadFrameBuffer.read s.width s.height,
        0 ≤ k ∧ k < ((s.width * s.height : Nat) : Int))
    ∧ (∀ k : Int, 0 ≤ k → k < ((s.width * s.height : Nat) : Int) →
        (ReadFrameBuffer.written s.width s.height).count k = 1)
    ∧ (∀ k : Int, ¬ (0 ≤ k ∧ k < ((s.width * s.height : Nat) : Int)) →
        (ReadFrameBuffer s (some p) dest_buffer).2 k = dest_buffer k) := by
  refine ⟨fun k hk => written_bounds hh hw hk, fun k hk => read_bounds hh hw hk, ?_, ?_⟩
  · intro k h0 hk
    exact List.count_eq_one_of_mem (written_nodup hh hw) (mem_written_of_lt hh hw h0 hk)
  · intro k hk
    exact ReadFrameBuffer_unwritten s p dest_buffer k (fun hmem => hk (written_bounds hh hw hmem))

/-- C9 witness: the surface 4 wide and 3 high. -/
theorem C9_ReadFrameBuffer_within_bounds_witness :
    ((windowOfSize 4 3).height < 2147483648
      ∧ (windowOfSize 4 3).width * ((windowOfSize 4 3).height - 1) < 2147483648)
    ∧ (ReadFrameBuffer.written (windowOfSize 4 3).width (windowOfSize 4 3).height).count 5 = 1
    ∧ (ReadFrameBuffer (windowOfSize 4 3) (some markerBuffer) zeroBuffer).2 12 = zeroBuffer 12 :=
  ⟨by decide,
   (C9_ReadFrameBuffer_within_bounds (windowOfSize 4 3) markerBuffer zeroBuffer
      (by decide) (by decide)).2.2.1 5 (by decide) (by decide),
   (C9_ReadFrameBuffer_within_bounds (windowOfSize 4 3) markerBuffer zeroBuffer
      (by decide) (by decide)).2.2.2 12 (by decide)⟩

/-- C9 counterexample: on a surface 1 wide and 2^31 high, destination index 0 lies
in `[0, width * height)` but is written zero times, not exactly once; and on a
surface 65536 wide and 65537 high the `u32` offset `width * (height - 1)` wraps to
0, so that iteration 1 writes destination index -65536, before the buffer. -/
theorem C9_counterexample :
    (1 ≤ (windowOfSize 1 2147483648).width ∧ 1 ≤ (windowOfSize 1 2147483648).height
      ∧ (0 : Int) < (((windowOfSize 1 2147483648).width * (windowOfSize 1 2147483648).height
            : Nat) : Int)
      ∧ (ReadFrameBuffer.written (windowOfSize 1 2147483648).width
            (windowOfSize 1 2147483648).height).count 0 ≠ 1)
    ∧ ((windowOfSize 65536 65537).width = 65536 ∧ (windowOfSize 65536 65537).height = 65537
      ∧ (-65536 : Int) ∈ ReadFrameBuffer.written 65536 65537) := by
  refine ⟨by decide, by decide, by decide, ?_⟩
  unfold ReadFrameBuffer.written ReadFrameBuffer.copies
  rw [List.mem_flatMap]
  refine ⟨{ dst := -65536, src := 65536, count := 65536 }, ?_, ?_⟩
  · rw [List.mem_map]
    exact ⟨1, List.mem_range.mpr (by decide), by decide⟩
  · rw [List.mem_map]
    exact ⟨0, List.mem_range.mpr (by decide), by decide⟩

/-! ## `Present`, `ReloadConfig` and the constructor: lemmas -/

theorem glFramebufferTexture2D_gl (t : Nat) (s : EmuWindow_Headless_GL) :
    (glFramebufferTexture2D t s).gl = s.gl := by
  unfold glFramebufferTexture2D
  split <;> rfl

theorem glBufferData_PIXEL_PACK_gl (n : Nat) (s : EmuWindow_Headless_GL) :
    (glBufferData_PIXEL_PACK n s).gl = s.gl := by
  unfold glBufferData_PIXEL_PACK
  split <;> rfl

theorem Present_gl (TryPresent : GLState → GLState) (s : EmuWindow_Headless_GL) :
    (Present TryPresent s).gl.scissor_test
        = (s.gl.scissor_test || (TryPresent (Present.beforeRender s).gl).scissor_test)
    ∧ (Present TryPresent s).gl.draw_framebuffer = s.gl.draw_framebuffer
    ∧ (Present TryPresent s).gl.read_framebuffer = s.gl.read_framebuffer := by
  unfold Present Present.afterRender
  cases hsc : s.gl.scissor_test <;>
    simp [GetCurState, hsc, glBufferData_PIXEL_PACK_gl, glBindFramebuffer,
      glBindBuffer_PIXEL_PACK, glEnable_SCISSOR_TEST, glReadPixels]

theorem beforeRender_scissor (s : EmuWindow_Headless_GL) :
    (Present.beforeRender s).gl.scissor_test = false := by
  unfold Present.beforeRender
  simp [glBindFramebuffer, glDisable_SCISSOR_TEST]

theorem ResetGLTexture_fields (s : EmuWindow_Headless_GL) :
    (ResetGLTexture s).width = s.width ∧ (ResetGLTexture s).height = s.height
    ∧ (ResetGLTexture s).framebuffer_layout = s.framebuffer_layout
    ∧ (ResetGLTexture s).final_texture
        = { handle := s.gl.names + 1, width := s.width, height := s.height }
    ∧ (ResetGLTexture s).final_texture_fbo.handle = s.final_texture_fbo.handle
    ∧ (ResetGLTexture s).final_texture_pbo = s.final_texture_pbo
    ∧ (s.final_texture_fbo.handle ≠ 0 →
        (ResetGLTexture s).final_texture_fbo.color_attachment0 = s.gl.names + 1) := by
  unfold ResetGLTexture glFramebufferTexture2D
  simp only [glBindFramebuffer, OGLTexture.Create, OGLTexture.Release, OGLTexture.Allocate, glGen]
  refine ⟨?_, ?_, ?_, ?_, ?_, ?_, ?_⟩ <;> split <;> simp_all

theorem ResetGLTexture_inv (s : EmuWindow_Headless_GL) (hf : s.final_texture_fbo.handle ≠ 0)
    (hp : s.final_texture_pbo.handle ≠ 0) : SurfaceInv (ResetGLTexture s) := by
  obtain ⟨h1, h2, _, h4, h5, h6, h7⟩ := ResetGLTexture_fields s
  unfold SurfaceInv
  rw [h1, h2, h4, h5, h6, h7 hf]
  simp [hf, hp]

theorem ReloadConfig_fields (values : Values)
    (CustomFrameLayout : Nat → Nat → Bool → FramebufferLayout) (s : EmuWindow_Headless_GL) :
    (ReloadConfig values CustomFrameLayout s).width = s.width
    ∧ (ReloadConfig values CustomFrameLayout s).height = s.height
    ∧ (ReloadConfig values CustomFrameLayout s).final_texture = s.final_texture
    ∧ (ReloadConfig values CustomFrameLayout s).final_texture_fbo = s.final_texture_fbo
    ∧ (ReloadConfig values CustomFrameLayout s).final_texture_pbo = s.final_texture_pbo
    ∧ (ReloadConfig values CustomFrameLayout s).gl = s.gl := by
  unfold ReloadConfig ReloadConfig.base UpdateCurrentFramebufferLayout
  split <;> simp

theorem beforeRender_fields (s : EmuWindow_Headless_GL) :
    (Present.beforeRender s).width = s.framebuffer_layout.width
    ∧ (Present.beforeRender s).height = s.framebuffer_layout.height
    ∧ (Present.beforeRender s).framebuffer_layout = s.framebuffer_layout
    ∧ (Present.beforeRender s).final_texture_fbo.handle = s.final_texture_fbo.handle
    ∧ (Present.beforeRender s).final_texture_pbo = s.final_texture_pbo := by
  obtain ⟨h1, h2, h3, _, h5, h6, _⟩ := ResetGLTexture_fields
    { s with width := s.framebuffer_layout.width, height := s.framebuffer_layout.height }
  unfold Present.beforeRender GetFramebufferLayout
  simp only
  split
  · simp [h1, h2, h3, h5, h6]
  · simp_all

theorem beforeRender_resize (s : EmuWindow_Headless_GL)
    (h : s.width ≠ s.framebuffer_layout.width ∨ s.height ≠ s.framebuffer_layout.height) :
    (Present.beforeRender s).final_texture
        = { handle := s.gl.names + 1, width := s.framebuffer_layout.width,
            height := s.framebuffer_layout.height }
    ∧ (Present.beforeRender s).gl.names = s.gl.names + 1
    ∧ (s.final_texture_fbo.handle ≠ 0 →
        (Present.beforeRender s).final_texture_fbo.color_attachment0 = s.gl.names + 1) := by
  obtain ⟨_, _, _, h4, _, _, h7⟩ := ResetGLTexture_fields
    { s with width := s.framebuffer_layout.width, height := s.framebuffer_layout.height }
  unfold Present.beforeRender GetFramebufferLayout
  simp only [if_pos h]
  refine ⟨by simpa using h4, ?_, fun hf => by simpa using h7 hf⟩
  simp [ResetGLTexture, glFramebufferTexture2D_gl, glBindFramebuffer, glDisable_SCISSOR_TEST,
    OGLTexture.Create, glGen]

theorem beforeRender_same (s : EmuWindow_Headless_GL)
    (h : s.width = s.framebuffer_layout.width ∧ s.height = s.framebuffer_layout.height) :
    (Present.beforeRender s).final_texture = s.final_texture
    ∧ (Present.beforeRender s).final_texture_fbo = s.final_texture_fbo
    ∧ (Present.beforeRender s).gl.names = s.gl.names := by
  unfold Present.beforeRender GetFramebufferLayout
  simp [h.1, h.2, glBindFramebuffer, glDisable_SCISSOR_TEST]

theorem afterRender_fields (prev_state : OpenGLState) (s : EmuWindow_Headless_GL) :
    (Present.afterRender prev_state s).width = s.width
    ∧ (Present.afterRender prev_state s).height = s.height
    ∧ (Present.afterRender prev_state s).framebuffer_layout = s.framebuffer_layout
    ∧ (Present.afterRender prev_state s).final_texture = s.final_texture
    ∧ (Present.afterRender prev_state s).final_texture_fbo = s.final_texture_fbo
    ∧ (Present.afterRender prev_state s).final_texture_pbo.handle = s.final_texture_pbo.handle
    ∧ (s.final_texture_pbo.handle ≠ 0 →
        (Present.afterRender prev_state s).final_texture_pbo.size
          = mulU32 s.width s.height * 4) := by
  unfold Present.afterRender glBufferData_PIXEL_PACK
  simp only [glBindFramebuffer, glBindBuffer_PIXEL_PACK, glReadPixels]
  refine ⟨?_, ?_, ?_, ?_, ?_, ?_, ?_⟩ <;> split <;> split <;> simp_all

theorem Present_fields (TryPresent : GLState → GLState) (s : EmuWindow_Headless_GL) :
    (Present TryPresent s).width = s.framebuffer_layout.width
    ∧ (Present TryPresent s).height = s.framebuffer_layout.height
    ∧ (Present TryPresent s).framebuffer_layout = s.framebuffer_layout
    ∧ (Present TryPresent s).final_texture = (Present.beforeRender s).final_texture
    ∧ (Present TryPresent s).final_texture_fbo = (Present.beforeRender s).final_texture_fbo
    ∧ (Present TryPresent s).final_texture_pbo.handle = s.final_texture_pbo.handle
    ∧ (s.final_texture_pbo.handle ≠ 0 →
        (Present TryPresent s).final_texture_pbo.size
          = mulU32 s.framebuffer_layout.width s.framebuffer_layout.height * 4) := by
  obtain ⟨b1, b2, b3, _, b5⟩ := beforeRender_fields s
  obtain ⟨a1, a2, a3, a4, a5, a6, a7⟩ := afterRender_fields (GetCurState s.gl)
    { Present.beforeRender s with gl := TryPresent (Present.beforeRender s).gl }
  unfold Present
  simp only at a1 a2 a3 a4 a5 a6 a7 ⊢
  refine ⟨a1.trans b1, a2.trans b2, a3.trans b3, a4, a5, a6.trans (by rw [b5]), fun hp => ?_⟩
  rw [a7 (by rw [b5]; exact hp), b1, b2]

theorem Present_inv (TryPresent : GLState → GLState) (s : EmuWindow_Headless_GL)
    (h : SurfaceInv s) : SurfaceInv (Present TryPresent s) := by
  obtain ⟨p1, p2, _, p4, p5, p6, _⟩ := Present_fields TryPresent s
  obtain ⟨i1, i2, i3, i4, i5, i6⟩ := h
  obtain ⟨_, _, _, b4, _⟩ := beforeRender_fields s
  unfold SurfaceInv
  rw [p1, p2, p4, p5, p6]
  by_cases hc : s.width ≠ s.framebuffer_layout.width ∨ s.height ≠ s.framebuffer_layout.height
  · obtain ⟨r1, _, r3⟩ := beforeRender_resize s hc
    rw [r1, r3 i5, b4]
    simp [i5, i6]
  · have hc2 : s.width = s.framebuffer_layout.width ∧ s.height = s.framebuffer_layout.height := by
      constructor
      · by_contra hne
        exact hc (Or.inl hne)
      · by_contra hne
        exact hc (Or.inr hne)
    obtain ⟨r1, r2, _⟩ := beforeRender_same s hc2
    rw [r1, r2]
    exact ⟨i1.trans hc2.1, i2.trans hc2.2, i3, i4, i5, i6⟩

theorem construct_inv (values : Values)
    (CustomFrameLayout : Nat → Nat → Bool → FramebufferLayout)
    (layout : FramebufferLayout) (gl : GLState) :
    SurfaceInv (EmuWindow_Headless_GL.construct values CustomFrameLayout layout gl)
    ∧ GetVideoBufferDimensions (EmuWindow_Headless_GL.construct values CustomFrameLayout layout gl)
        = ((EmuWindow_Headless_GL.construct values CustomFrameLayout layout gl).framebuffer_layout.width,
           (EmuWindow_Headless_GL.construct values CustomFrameLayout layout gl).framebuffer_layout.height) := by
  unfold EmuWindow_Headless_GL.construct
  simp only
  constructor
  · apply ResetGLTexture_inv <;> simp [OGLFramebuffer.Create, OGLBuffer.Create, glGen]
  · unfold GetVideoBufferDimensions
    simp only [ResetGLTexture_fields, GetFramebufferLayout]

theorem reachable_inv {s : EmuWindow_Headless_GL} (hs : Reachable s) : SurfaceInv s := by
  induction hs with
  | construct values cfl layout gl => exact (construct_inv values cfl layout gl).1
  | reloadConfig values cfl _ ih =>
    obtain ⟨h1, h2, h3, h4, h5, _⟩ := ReloadConfig_fields values cfl _
    unfold SurfaceInv at ih ⊢
    rw [h1, h2, h3, h4, h5]
    exact ih
  | present T _ ih => exact Present_inv T _ ih
  | readFrameBuffer mapped dest _ ih => exact ih

theorem ReloadConfig_layout (values : Values)
    (CustomFrameLayout : Nat → Nat → Bool → FramebufferLayout) (s : EmuWindow_Headless_GL) :
    (ReloadConfig values CustomFrameLayout s).framebuffer_layout.width
        = mulU32 (ReloadConfig.base values CustomFrameLayout s).framebuffer_layout.width
            values.resolution_factor
    ∧ (ReloadConfig values CustomFrameLayout s).framebuffer_layout.height
        = mulU32 (ReloadConfig.base values CustomFrameLayout s).framebuffer_layout.height
            values.resolution_factor :=
  ⟨rfl, rfl⟩

theorem mulU32_lt (a b : Nat) : mulU32 a b < 4294967296 := by
  unfold mulU32
  omega

theorem reachable_layout_lt {s : EmuWindow_Headless_GL} (hs : Reachable s) :
    s.framebuffer_layout.width < 4294967296 ∧ s.framebuffer_layout.height < 4294967296 := by
  induction hs with
  | construct values cfl layout gl =>
    unfold EmuWindow_Headless_GL.construct
    simp only [ResetGLTexture_fields]
    exact ⟨mulU32_lt _ _, mulU32_lt _ _⟩
  | reloadConfig values cfl _ _ =>
    obtain ⟨h1, h2⟩ := ReloadConfig_layout values cfl _
    rw [h1, h2]
    exact ⟨mulU32_lt _ _, mulU32_lt _ _⟩
  | present T _ ih =>
    obtain ⟨_, _, p3, _⟩ := Present_fields T _
    rw [p3]
    exact ih
  | readFrameBuffer mapped dest _ ih => exact ih

theorem untilNextPresent_fields {s t : EmuWindow_Headless_GL} (h : UntilNextPresent s t) :
    t.width = s.width ∧ t.height = s.height ∧ t.final_texture = s.final_texture
    ∧ t.final_texture_pbo = s.final_texture_pbo := by
  induction h with
  | refl => exact ⟨rfl, rfl, rfl, rfl⟩
  | reloadConfig values cfl _ ih =>
    obtain ⟨h1, h2, h3, _, h5, _⟩ := ReloadConfig_fields values cfl _
    rw [h1, h2, h3, h5]
    exact ih
  | readFrameBuffer mapped dest _ ih => exact ih

/-! ## The claims about `Present` and the surface -/

/-- C2: whatever the GL state at entry is and whether or not `Present` resizes, if
the renderer's `TryPresent` leaves scissor-test enablement and the draw and read
framebuffer bindings untouched, these three are the same after `Present` as before. -/
theorem C2_Present_state_transparent (TryPresent : GLState → GLState)
    (s : EmuWindow_Headless_GL)
    (hT : ∀ gl : GLState, (TryPresent gl).scissor_test = gl.scissor_test
        ∧ (TryPresent gl).draw_framebuffer = gl.draw_framebuffer
        ∧ (TryPresent gl).read_framebuffer = gl.read_framebuffer) :
    (Present TryPresent s).gl.scissor_test = s.gl.scissor_test
    ∧ (Present TryPresent s).gl.draw_framebuffer = s.gl.draw_framebuffer
    ∧ (Present TryPresent s).gl.read_framebuffer = s.gl.read_framebuffer := by
  obtain ⟨h1, h2, h3⟩ := Present_gl TryPresent s
  refine ⟨?_, h2, h3⟩
  rw [h1, (hT _).1, beforeRender_scissor]
  simp

/-- C2 witness: scissor test enabled, bindings 7 and 9, a pending resize and a
renderer that changes other GL state. -/
theorem C2_Present_state_transparent_witness :
    (∀ gl : GLState, (busyRenderer gl).scissor_test = gl.scissor_test
        ∧ (busyRenderer gl).draw_framebuffer = gl.draw_framebuffer
        ∧ (busyRenderer gl).read_framebuffer = gl.read_framebuffer)
    ∧ (scissorWindow.width ≠ scissorWindow.framebuffer_layout.width
        ∧ (Present busyRenderer scissorWindow).gl.scissor_test = true
        ∧ (Present busyRenderer scissorWindow).gl.draw_framebuffer = 7
        ∧ (Present busyRenderer scissorWindow).gl.read_framebuffer = 9) :=
  ⟨fun _ => ⟨rfl, rfl, rfl⟩, by decide,
   C2_Present_state_transparent busyRenderer scissorWindow (fun _ => ⟨rfl, rfl, rfl⟩)⟩

/-- C3: `Present` calls the renderer in the state `Present.beforeRender`.  If the
layout size differs from the surface size, then already in that state the
destination texture is a newly created one whose storage has the layout size, and
after `Present` the reported dimensions are the layout size; if the sizes are
equal, the dimensions and the texture are unchanged and no object is created
before the renderer runs. -/
theorem C3_Present_resize_on_present (TryPresent : GLState → GLState)
    (s : EmuWindow_Headless_GL) :
    Present TryPresent s
        = Present.afterRender (GetCurState s.gl)
            { Present.beforeRender s with gl := TryPresent (Present.beforeRender s).gl }
    ∧ ((s.width ≠ (GetFramebufferLayout s).width ∨ s.height ≠ (GetFramebufferLayout s).height) →
        (Present.beforeRender s).final_texture
            = { handle := s.gl.names + 1, width := (GetFramebufferLayout s).width,
                height := (GetFramebufferLayout s).height }
        ∧ (Present.beforeRender s).gl.names = s.gl.names + 1
        ∧ (Present TryPresent s).final_texture = (Present.beforeRender s).final_texture
        ∧ GetVideoBufferDimensions (Present TryPresent s)
            = ((GetFramebufferLayout s).width, (GetFramebufferLayout s).height))
    ∧ ((s.width = (GetFramebufferLayout s).width ∧ s.height = (GetFramebufferLayout s).height) →
        GetVideoBufferDimensions (Present TryPresent s) = GetVideoBufferDimensions s
        ∧ (Present TryPresent s).final_texture = s.final_texture
        ∧ (Present.beforeRender s).gl.names = s.gl.names) := by
  obtain ⟨p1, p2, _, p4, _⟩ := Present_fields TryPresent s
  refine ⟨rfl, fun h => ?_, fun h => ?_⟩
  · obtain ⟨r1, r2, _⟩ := beforeRender_resize s h
    refine ⟨r1, r2, p4, ?_⟩
    unfold GetVideoBufferDimensions GetFramebufferLayout
    rw [p1, p2]
  · obtain ⟨r1, _, r3⟩ := beforeRender_same s h
    refine ⟨?_, p4.trans r1, r3⟩
    unfold GetVideoBufferDimensions
    rw [p1, p2, h.1, h.2]
    rfl

/-- C3 witness: `rescaledWindow` (surface 4 by 3, layout 8 by 6) is resized to 8 by
6 before the renderer runs; the window of size 4 by 3 with an equal layout keeps
its texture. -/
theorem C3_Present_resize_on_present_witness :
    ((rescaledWindow.width ≠ (GetFramebufferLayout rescaledWindow).width
        ∨ rescaledWindow.height ≠ (GetFramebufferLayout rescaledWindow).height)
      ∧ (Present.beforeRender rescaledWindow).final_texture
          = { handle := 4, width := 8, height := 6 }
      ∧ GetVideoBufferDimensions (Present busyRenderer rescaledWindow) = (8, 6))
    ∧ (((windowOfSize 4 3).width = (GetFramebufferLayout (windowOfSize 4 3)).width
        ∧ (windowOfSize 4 3).height = (GetFramebufferLayout (windowOfSize 4 3)).height)
      ∧ GetVideoBufferDimensions (Present busyRenderer (windowOfSize 4 3)) = (4, 3)
      ∧ (Present busyRenderer (windowOfSize 4 3)).final_texture
          = (windowOfSize 4 3).final_texture) :=
  ⟨⟨by decide,
    ((C3_Present_resize_on_present busyRenderer rescaledWindow).2.1 (by decide)).1,
    ((C3_Present_resize_on_present busyRenderer rescaledWindow).2.1 (by decide)).2.2.2⟩,
   ⟨by decide,
    ((C3_Present_resize_on_present busyRenderer (windowOfSize 4 3)).2.2 (by decide)).1,
    ((C3_Present_resize_on_present busyRenderer (windowOfSize 4 3)).2.2 (by decide)).2.1⟩⟩

/-- C8 (amended): in every reachable state the storage of the destination texture
has the size reported by `GetVideoBufferDimensions` and the texture is the colour
attachment of the FBO; this size equals the current layout size right after
construction and right after every `Present`, and `ReadFrameBuffer` changes none
of them. -/
theorem C8_surface_matches_dimensions (s : EmuWindow_Headless_GL) (hs : Reachable s) :
    (s.final_texture.width, s.final_texture.height) = GetVideoBufferDimensions s
    ∧ s.final_texture_fbo.color_attachment0 = s.final_texture.handle
    ∧ (∀ TryPresent : GLState → GLState,
        GetVideoBufferDimensions (Present TryPresent s)
            = ((GetFramebufferLayout (Present TryPresent s)).width,
               (GetFramebufferLayout (Present TryPresent s)).height)
        ∧ ((Present TryPresent s).final_texture.width,
            (Present TryPresent s).final_texture.height)
            = ((GetFramebufferLayout (Present TryPresent s)).width,
               (GetFramebufferLayout (Present TryPresent s)).height))
    ∧ (∀ (values : Values) (CustomFrameLayout : Nat → Nat → Bool → FramebufferLayout)
        (layout : FramebufferLayout) (gl : GLState),
        GetVideoBufferDimensions
            (EmuWindow_Headless_GL.construct values CustomFrameLayout layout gl)
          = ((GetFramebufferLayout
                (EmuWindow_Headless_GL.construct values CustomFrameLayout layout gl)).width,
             (GetFramebufferLayout
                (EmuWindow_Headless_GL.construct values CustomFrameLayout layout gl)).height))
    ∧ (∀ (mapped : Option (Int → Nat)) (dest_buffer : Int → Nat),
        GetVideoBufferDimensions (ReadFrameBuffer s mapped dest_buffer).1
            = GetVideoBufferDimensions s
        ∧ GetFramebufferLayout (ReadFrameBuffer s mapped dest_buffer).1 = GetFramebufferLayout s
        ∧ (ReadFrameBuffer s mapped dest_buffer).1.final_texture = s.final_texture) := by
  obtain ⟨i1, i2, i3, _⟩ := reachable_inv hs
  refine ⟨?_, i3, fun T => ?_, fun values cfl layout gl => (construct_inv values cfl layout gl).2,
    fun _ _ => ⟨rfl, rfl, rfl⟩⟩
  · unfold GetVideoBufferDimensions
    rw [i1, i2]
  · obtain ⟨j1, j2, _⟩ := reachable_inv (Reachable.present T hs)
    obtain ⟨p1, p2, p3, _⟩ := Present_fields T s
    unfold GetVideoBufferDimensions GetFramebufferLayout
    rw [j1, j2, p1, p2, p3]
    exact ⟨rfl, rfl⟩

/-- C8 witness: the constructed window of size 4 by 3. -/
theorem C8_surface_matches_dimensions_witness :
    Reachable (windowOfSize 4 3)
    ∧ ((windowOfSize 4 3).final_texture.width, (windowOfSize 4 3).final_texture.height)
        = GetVideoBufferDimensions (windowOfSize 4 3)
    ∧ (windowOfSize 4 3).final_texture_fbo.color_attachment0
        = (windowOfSize 4 3).final_texture.handle :=
  ⟨Reachable.construct _ _ _ _,
   (C8_surface_matches_dimensions (windowOfSize 4 3) (Reachable.construct _ _ _ _)).1,
   (C8_surface_matches_dimensions (windowOfSize 4 3) (Reachable.construct _ _ _ _)).2.1⟩

/-- C8 counterexample: after construction at 4 by 3 and a `ReloadConfig` under
resolution factor 2, the resolved layout is 8 by 6 while the texture storage and
`GetVideoBufferDimensions` are still 4 by 3. -/
theorem C8_counterexample :
    Reachable rescaledWindow
    ∧ ((GetFramebufferLayout rescaledWindow).width, (GetFramebufferLayout rescaledWindow).height)
        = (8, 6)
    ∧ GetVideoBufferDimensions rescaledWindow = (4, 3)
    ∧ (rescaledWindow.final_texture.width, rescaledWindow.final_texture.height) = (4, 3)
    ∧ GetVideoBufferDimensions rescaledWindow
        ≠ ((GetFramebufferLayout rescaledWindow).width,
           (GetFramebufferLayout rescaledWindow).height) :=
  ⟨Reachable.reloadConfig _ _ (Reachable.construct _ _ _ _), by decide, by decide, by decide,
   by decide⟩

/-- C10 (amended): from a `Present` of a reachable state until the next `Present`,
the reported dimensions stay those of that `Present` and the transfer buffer holds
`((width * height) mod 2^32) * 4` bytes, which is `width * height * 4` whenever
`width * height` is below 2^32; and when the height is below 2^31 and
`width * (height - 1)` is below 2^31, every pixel that `ReadFrameBuffer` reads
lies inside the transfer buffer. -/
theorem C10_transfer_buffer_size (TryPresent : GLState → GLState)
    (s t : EmuWindow_Headless_GL) (hs : Reachable s)
    (ht : UntilNextPresent (Present TryPresent s) t) :
    GetVideoBufferDimensions t = GetVideoBufferDimensions (Present TryPresent s)
    ∧ t.final_texture_pbo.size = mulU32 t.width t.height * 4
    ∧ (t.width * t.height < 4294967296 → t.final_texture_pbo.size = t.width * t.height * 4)
    ∧ (t.height < 2147483648 → t.width * (t.height - 1) < 2147483648 →
        ∀ k ∈ ReadFrameBuffer.read t.width t.height,
          0 ≤ k ∧ 4 * k + 4 ≤ (t.final_texture_pbo.size : Int)) := by
  obtain ⟨u1, u2, _, u4⟩ := untilNextPresent_fields ht
  obtain ⟨p1, p2, _, _, _, _, p7⟩ := Present_fields TryPresent s
  obtain ⟨_, _, _, _, _, i6⟩ := reachable_inv hs
  obtain ⟨l1, l2⟩ := reachable_layout_lt hs
  have hsize : t.final_texture_pbo.size = mulU32 t.width t.height * 4 := by
    rw [u4, p7 i6, u1, u2, p1, p2]
  have hwlt : t.width < 4294967296 := by rw [u1, p1]; exact l1
  refine ⟨?_, hsize, fun h => ?_, fun hh hw k hk => ?_⟩
  · unfold GetVideoBufferDimensions
    rw [u1, u2]
  · rw [hsize, mulU32_eq_mul h]
  · obtain ⟨k0, k1⟩ := read_bounds hh hw hk
    have hprod : t.width * t.height < 4294967296 := by
      rcases Nat.lt_or_ge t.height 2 with h2 | h2
      · have : t.width * t.height ≤ t.width * 1 := Nat.mul_le_mul_left _ (by omega)
        omega
      · have e : t.width * t.height = t.width * (t.height - 1) + t.width := by
          have : t.height = (t.height - 1) + 1 := by omega
          conv_lhs => rw [this, Nat.mul_add, Nat.mul_one]
        have : t.width * 1 ≤ t.width * (t.height - 1) := Nat.mul_le_mul_left _ (by omega)
        omega
    rw [hsize, mulU32_eq_mul hprod]
    refine ⟨k0, ?_⟩
    push_cast at k1 ⊢
    omega

/-- C10 witness: the 4 by 3 window, presented and then read back once; the buffer
holds 48 bytes and pixel 11, the last one read, ends at byte 48. -/
theorem C10_transfer_buffer_size_witness :
    (Reachable (windowOfSize 4 3)
      ∧ UntilNextPresent (Present busyRenderer (windowOfSize 4 3))
          (ReadFrameBuffer (Present busyRenderer (windowOfSize 4 3)) none zeroBuffer).1
      ∧ (ReadFrameBuffer (Present busyRenderer (windowOfSize 4 3)) none zeroBuffer).1.height
          < 2147483648
      ∧ (11 : Int) ∈ ReadFrameBuffer.read
          (ReadFrameBuffer (Present busyRenderer (windowOfSize 4 3)) none zeroBuffer).1.width
          (ReadFrameBuffer (Present busyRenderer (windowOfSize 4 3)) none zeroBuffer).1.height)
    ∧ (ReadFrameBuffer (Present busyRenderer (windowOfSize 4 3)) none zeroBuffer).1.final_texture_pbo.size
        = mulU32 (ReadFrameBuffer (Present busyRenderer (windowOfSize 4 3)) none zeroBuffer).1.width
            (ReadFrameBuffer (Present busyRenderer (windowOfSize 4 3)) none zeroBuffer).1.height * 4
    ∧ ((0 : Int) ≤ 11 ∧ 4 * (11 : Int) + 4
        ≤ ((ReadFrameBuffer (Present busyRenderer (windowOfSize 4 3)) none
              zeroBuffer).1.final_texture_pbo.size : Int)) :=
  ⟨⟨Reachable.construct _ _ _ _, UntilNextPresent.readFrameBuffer _ _ UntilNextPresent.refl,
    by decide, by decide⟩,
   (C10_transfer_buffer_size busyRenderer (windowOfSize 4 3) _ (Reachable.construct _ _ _ _)
      (UntilNextPresent.readFrameBuffer none zeroBuffer UntilNextPresent.refl)).2.1,
   (C10_transfer_buffer_size busyRenderer (windowOfSize 4 3) _ (Reachable.construct _ _ _ _)
      (UntilNextPresent.readFrameBuffer none zeroBuffer UntilNextPresent.refl)).2.2.2
      (by decide) (by decide) 11 (by decide)⟩

/-- C10 counterexample: the window constructed at 65536 by 65536 is reachable; after
`Present` its dimensions are 65536 by 65536 and the transfer buffer holds 0 bytes,
not 65536 * 65536 * 4, although a later `ReadFrameBuffer` reads pixel 0 of it. -/
theorem C10_counterexample :
    Reachable (windowOfSize 65536 65536)
    ∧ GetVideoBufferDimensions (Present busyRenderer (windowOfSize 65536 65536)) = (65536, 65536)
    ∧ (Present busyRenderer (windowOfSize 65536 65536)).final_texture_pbo.size = 0
    ∧ (Present busyRenderer (windowOfSize 65536 65536)).final_texture_pbo.size
        ≠ 65536 * 65536 * 4
    ∧ (0 : Int) ∈ ReadFrameBuffer.read 65536 65536 := by
  refine ⟨Reachable.construct _ _ _ _, by decide, by decide, by decide, ?_⟩
  unfold ReadFrameBuffer.read ReadFrameBuffer.copies
  rw [List.mem_flatMap]
  refine ⟨{ dst := ((mulU32 65536 (subU32 65536 1) : Nat) : Int), src := 0, count := 65536 },
    ?_, ?_⟩
  · rw [List.mem_map]
    exact ⟨0, List.mem_range.mpr (by decide), by decide⟩
  · rw [List.mem_map]
    exact ⟨0, List.mem_range.mpr (by decide), by decide⟩

/-! ## The claims about `ReloadConfig` -/

theorem subU32_cast (a b : Nat) :
    ((subU32 a b : Nat) : Int) = ((a : Int) - (b : Int)) % 4294967296 := by
  unfold subU32
  omega

theorem subU32_of_sub_eq {a b : Nat} {d : Nat} (h : (a : Int) - (b : Int) = (d : Int))
    (hd : d < 4294967296) : subU32 a b = d := by
  unfold subU32
  omega

theorem base_custom (values : Values)
    (CustomFrameLayout : Nat → Nat → Bool → FramebufferLayout) (s : EmuWindow_Headless_GL)
    (hc : values.custom_layout = true) :
    (ReloadConfig.base values CustomFrameLayout s).framebuffer_layout.width
        = max (ReloadConfig.customLayout (CustomFrameLayout 1 1 values.swap_screen)).width 1
    ∧ (ReloadConfig.base values CustomFrameLayout s).framebuffer_layout.height
        = max (ReloadConfig.customLayout (CustomFrameLayout 1 1 values.swap_screen)).height 1 := by
  unfold ReloadConfig.base UpdateCurrentFramebufferLayout
  simp [hc]

theorem customLayout_dims (layout : FramebufferLayout) :
    ((ReloadConfig.customLayout layout).width, (ReloadConfig.customLayout layout).height)
      = if layout.is_rotated then
          (subU32 (max layout.top_screen.top layout.bottom_screen.top)
              (min layout.top_screen.bottom layout.bottom_screen.bottom),
           subU32 (max layout.top_screen.right layout.bottom_screen.right)
              (min layout.top_screen.left layout.bottom_screen.left))
        else
          (subU32 (max layout.top_screen.right layout.bottom_screen.right)
              (min layout.top_screen.left layout.bottom_screen.left),
           subU32 (max layout.top_screen.top layout.bottom_screen.top)
              (min layout.top_screen.bottom layout.bottom_screen.bottom)) := by
  unfold ReloadConfig.customLayout
  cases h : layout.is_rotated <;> simp [h]

/-- C5 (amended): with custom layout enabled, the `width` and `height` that
`ReloadConfig` computes are max(rights) - min(lefts) and max(tops) - min(bottoms)
of the two screens returned by the custom layout, each reduced modulo 2^32 and the
two swapped when the layout is rotated; the base size requested is that pair with
each component raised to at least 1; and when max(rights) - min(lefts) is 400,
max(tops) - min(bottoms) is 240 and the scale factor is 1, the output dimensions
requested are (400, 240), or (240, 400) when rotated. -/
theorem C5_ReloadConfig_custom_layout (values : Values)
    (CustomFrameLayout : Nat → Nat → Bool → FramebufferLayout) (s : EmuWindow_Headless_GL)
    (hc : values.custom_layout = true) :
    ((((ReloadConfig.customLayout (CustomFrameLayout 1 1 values.swap_screen)).width : Nat) : Int),
     (((ReloadConfig.customLayout (CustomFrameLayout 1 1 values.swap_screen)).height : Nat) : Int))
        = (if (CustomFrameLayout 1 1 values.swap_screen).is_rotated then
            (boundingRectHeight (CustomFrameLayout 1 1 values.swap_screen) % 4294967296,
             boundingRectWidth (CustomFrameLayout 1 1 values.swap_screen) % 4294967296)
          else
            (boundingRectWidth (CustomFrameLayout 1 1 values.swap_screen) % 4294967296,
             boundingRectHeight (CustomFrameLayout 1 1 values.swap_screen) % 4294967296))
    ∧ ((GetFramebufferLayout (ReloadConfig.base values CustomFrameLayout s)).width,
       (GetFramebufferLayout (ReloadConfig.base values CustomFrameLayout s)).height)
        = (max (ReloadConfig.customLayout (CustomFrameLayout 1 1 values.swap_screen)).width 1,
           max (ReloadConfig.customLayout (CustomFrameLayout 1 1 values.swap_screen)).height 1)
    ∧ (boundingRectWidth (CustomFrameLayout 1 1 values.swap_screen) = 400 →
       boundingRectHeight (CustomFrameLayout 1 1 values.swap_screen) = 240 →
       values.resolution_factor = 1 →
       ((GetFramebufferLayout (ReloadConfig values CustomFrameLayout s)).width,
        (GetFramebufferLayout (ReloadConfig values CustomFrameLayout s)).height)
        = (if (CustomFrameLayout 1 1 values.swap_screen).is_rotated then (240, 400)
          else (400, 240))) := by
  obtain ⟨b1, b2⟩ := base_custom values CustomFrameLayout s hc
  have hd := customLayout_dims (CustomFrameLayout 1 1 values.swap_screen)
  refine ⟨?_, ?_, ?_⟩
  · unfold boundingRectWidth boundingRectHeight
    cases hr : (CustomFrameLayout 1 1 values.swap_screen).is_rotated
    · rw [hr] at hd
      simp only [Bool.false_eq_true, if_false, Prod.mk.injEq] at hd ⊢
      rw [hd.1, hd.2]
      exact ⟨subU32_cast _ _, subU32_cast _ _⟩
    · rw [hr] at hd
      simp only [if_true, Prod.mk.injEq] at hd ⊢
      rw [hd.1, hd.2]
      exact ⟨subU32_cast _ _, subU32_cast _ _⟩
  · unfold GetFramebufferLayout
    rw [b1, b2]
  · intro hW hH hs
    obtain ⟨f1, f2⟩ := ReloadConfig_layout values CustomFrameLayout s
    unfold boundingRectWidth at hW
    unfold boundingRectHeight at hH
    have eW := subU32_of_sub_eq (d := 400) hW (by decide)
    have eH := subU32_of_sub_eq (d := 240) hH (by decide)
    rw [eW, eH] at hd
    unfold GetFramebufferLayout
    rw [f1, f2, b1, b2, hs]
    cases hr : (CustomFrameLayout 1 1 values.swap_screen).is_rotated
    · rw [hr] at hd
      simp only [Bool.false_eq_true, if_false, Prod.mk.injEq] at hd ⊢
      rw [hd.1, hd.2]
      exact ⟨by decide, by decide⟩
    · rw [hr] at hd
      simp only [if_true, Prod.mk.injEq] at hd ⊢
      rw [hd.1, hd.2]
      exact ⟨by decide, by decide⟩

/-- C5 witness: an unrotated layout with max(rights) - min(lefts) = 400 and
max(tops) - min(bottoms) = 240 yields (400, 240); the rotated layout
`rotatedLayout`, whose screens have different widths, yields (240, 400). -/
theorem C5_ReloadConfig_custom_layout_witness :
    ((boundingRectWidth (rectLayout 400 240 1 1 false) = 400
        ∧ boundingRectHeight (rectLayout 400 240 1 1 false) = 240)
      ∧ ((GetFramebufferLayout (ReloadConfig
            { custom_layout := true, swap_screen := false, resolution_factor := 1 }
            (rectLayout 400 240) (windowOfSize 4 3))).width,
          (GetFramebufferLayout (ReloadConfig
            { custom_layout := true, swap_screen := false, resolution_factor := 1 }
            (rectLayout 400 240) (windowOfSize 4 3))).height) = (400, 240))
    ∧ ((boundingRectWidth (rotatedLayout 1 1 true) = 400
        ∧ boundingRectHeight (rotatedLayout 1 1 true) = 240)
      ∧ ((GetFramebufferLayout (ReloadConfig
            { custom_layout := true, swap_screen := true, resolution_factor := 1 }
            rotatedLayout (windowOfSize 4 3))).width,
          (GetFramebufferLayout (ReloadConfig
            { custom_layout := true, swap_screen := true, resolution_factor := 1 }
            rotatedLayout (windowOfSize 4 3))).height) = (240, 400)) :=
  ⟨⟨by decide,
    (C5_ReloadConfig_custom_layout
      { custom_layout := true, swap_screen := false, resolution_factor := 1 }
      (rectLayout 400 240) (windowOfSize 4 3) rfl).2.2 (by decide) (by decide) rfl⟩,
   ⟨by decide,
    (C5_ReloadConfig_custom_layout
      { custom_layout := true, swap_screen := true, resolution_factor := 1 }
      rotatedLayout (windowOfSize 4 3) rfl).2.2 (by decide) (by decide) rfl⟩⟩

/-- C5 counterexample: both screens of `downwardLayout` span 0 to 400 horizontally
and 0 to 240 vertically, so the rectangle enclosing them is 400 wide and 240 high
and the layout is not rotated; at scale factor 1 `ReloadConfig` computes
max(tops) - min(bottoms) = 0 - 240 in `u32` and requests (400, 4294967056), not
(400, 240). -/
theorem C5_counterexample :
    enclosingRectWidth (downwardLayout 1 1 false) = 400
    ∧ enclosingRectHeight (downwardLayout 1 1 false) = 240
    ∧ (downwardLayout 1 1 false).is_rotated = false
    ∧ ((GetFramebufferLayout (ReloadConfig
          { custom_layout := true, swap_screen := false, resolution_factor := 1 }
          downwardLayout (windowOfSize 4 3))).width,
        (GetFramebufferLayout (ReloadConfig
          { custom_layout := true, swap_screen := false, resolution_factor := 1 }
          downwardLayout (windowOfSize 4 3))).height) = (400, 4294967056)
    ∧ ((GetFramebufferLayout (ReloadConfig
          { custom_layout := true, swap_screen := false, resolution_factor := 1 }
          downwardLayout (windowOfSize 4 3))).width,
        (GetFramebufferLayout (ReloadConfig
          { custom_layout := true, swap_screen := false, resolution_factor := 1 }
          downwardLayout (windowOfSize 4 3))).height) ≠ (400, 240) := by
  decide

/-- C6 (amended): under every configuration the base size that `ReloadConfig`
establishes has width and height at least 1, and the output dimensions it requests
are the base size times the scale factor modulo 2^32; a requested dimension is at
least 1 whenever the scale factor is at least 1 and the product is below 2^32. -/
theorem C6_ReloadConfig_dimensions (values : Values)
    (CustomFrameLayout : Nat → Nat → Bool → FramebufferLayout) (s : EmuWindow_Headless_GL) :
    1 ≤ (GetFramebufferLayout (ReloadConfig.base values CustomFrameLayout s)).width
    ∧ 1 ≤ (GetFramebufferLayout (ReloadConfig.base values CustomFrameLayout s)).height
    ∧ (GetFramebufferLayout (ReloadConfig values CustomFrameLayout s)).width
        = ((GetFramebufferLayout (ReloadConfig.base values CustomFrameLayout s)).width
            * values.resolution_factor) % 4294967296
    ∧ (GetFramebufferLayout (ReloadConfig values CustomFrameLayout s)).height
        = ((GetFramebufferLayout (ReloadConfig.base values CustomFrameLayout s)).height
            * values.resolution_factor) % 4294967296
    ∧ (1 ≤ values.resolution_factor →
        (GetFramebufferLayout (ReloadConfig.base values CustomFrameLayout s)).width
            * values.resolution_factor < 4294967296 →
        1 ≤ (GetFramebufferLayout (ReloadConfig values CustomFrameLayout s)).width)
    ∧ (1 ≤ values.resolution_factor →
        (GetFramebufferLayout (ReloadConfig.base values CustomFrameLayout s)).height
            * values.resolution_factor < 4294967296 →
        1 ≤ (GetFramebufferLayout (ReloadConfig values CustomFrameLayout s)).height) := by
  obtain ⟨f1, f2⟩ := ReloadConfig_layout values CustomFrameLayout s
  have hb : 1 ≤ (ReloadConfig.base values CustomFrameLayout s).framebuffer_layout.width
      ∧ 1 ≤ (ReloadConfig.base values CustomFrameLayout s).framebuffer_layout.height := by
    unfold ReloadConfig.base UpdateCurrentFramebufferLayout
    split <;> simp
  unfold GetFramebufferLayout
  refine ⟨hb.1, hb.2, f1, f2, fun h1 h2 => ?_, fun h1 h2 => ?_⟩
  · rw [f1, mulU32_eq_mul h2]
    exact Nat.mul_pos hb.1 h1
  · rw [f2, mulU32_eq_mul h2]
    exact Nat.mul_pos hb.2 h1

/-- C6 witness: custom layout 400 by 240 at resolution factor 3. -/
theorem C6_ReloadConfig_dimensions_witness :
    (1 ≤ (3 : Nat) ∧ 400 * 3 < 4294967296)
    ∧ 1 ≤ (GetFramebufferLayout (ReloadConfig
        { custom_layout := true, swap_screen := false, resolution_factor := 3 }
        (rectLayout 400 240) (windowOfSize 4 3))).width :=
  ⟨by decide,
   (C6_ReloadConfig_dimensions
      { custom_layout := true, swap_screen := false, resolution_factor := 3 }
      (rectLayout 400 240) (windowOfSize 4 3)).2.2.2.2.1 (by decide) (by decide)⟩

/-- C6 counterexample: with custom layout disabled and resolution factor 0 the
requested dimensions are (0, 0); with a custom layout 65536 wide and resolution
factor 65536 the requested width is 0. -/
theorem C6_counterexample :
    ((GetFramebufferLayout (ReloadConfig
          { custom_layout := false, swap_screen := false, resolution_factor := 0 }
          (rectLayout 400 240) (windowOfSize 4 3))).width,
      (GetFramebufferLayout (ReloadConfig
          { custom_layout := false, swap_screen := false, resolution_factor := 0 }
          (rectLayout 400 240) (windowOfSize 4 3))).height) = (0, 0)
    ∧ ¬ (1 ≤ (GetFramebufferLayout (ReloadConfig
          { custom_layout := false, swap_screen := false, resolution_factor := 0 }
          (rectLayout 400 240) (windowOfSize 4 3))).width)
    ∧ ¬ (1 ≤ (GetFramebufferLayout (ReloadConfig
          { custom_layout := true, swap_screen := false, resolution_factor := 65536 }
          (rectLayout 65536 240) (windowOfSize 4 3))).width) := by
  decide

/-- C7: with custom layout disabled `ReloadConfig` establishes the base size (1, 1)
and, for every `u32` scale factor `scale`, resolves the output dimensions
(`scale`, `scale`); for scale factor 2 they are (2, 2). -/
theorem C7_ReloadConfig_default_layout (swap_screen : Bool) (scale : Nat)
    (CustomFrameLayout : Nat → Nat → Bool → FramebufferLayout) (s : EmuWindow_Headless_GL)
    (hscale : scale < 4294967296) :
    ((GetFramebufferLayout (ReloadConfig.base
          { custom_layout := false, swap_screen := swap_screen, resolution_factor := scale }
          CustomFrameLayout s)).width,
      (GetFramebufferLayout (ReloadConfig.base
          { custom_layout := false, swap_screen := swap_screen, resolution_factor := scale }
          CustomFrameLayout s)).height) = (1, 1)
    ∧ ((GetFramebufferLayout (ReloadConfig
          { custom_layout := false, swap_screen := swap_screen, resolution_factor := scale }
          CustomFrameLayout s)).width,
      (GetFramebufferLayout (ReloadConfig
          { custom_layout := false, swap_screen := swap_screen, resolution_factor := scale }
          CustomFrameLayout s)).height) = (scale, scale) := by
  refine ⟨rfl, ?_⟩
  have h : mulU32 1 scale = scale := by
    rw [mulU32_eq_mul (by omega)]
    omega
  simp [ReloadConfig, ReloadConfig.base, UpdateCurrentFramebufferLayout, GetFramebufferLayout, h]

/-- C7 witness: custom layout disabled and scale factor 2 resolve to (2, 2). -/
theorem C7_ReloadConfig_default_layout_witness :
    (2 : Nat) < 4294967296
    ∧ ((GetFramebufferLayout (ReloadConfig
          { custom_layout := false, swap_screen := false, resolution_factor := 2 }
          (rectLayout 400 240) (windowOfSize 4 3))).width,
      (GetFramebufferLayout (ReloadConfig
          { custom_layout := false, swap_screen := false, resolution_factor := 2 }
          (rectLayout 400 240) (windowOfSize 4 3))).height) = (2, 2) :=
  ⟨by decide,
   (C7_ReloadConfig_default_layout false 2 (rectLayout 400 240) (windowOfSize 4 3)
      (by decide)).2⟩

end Headless
